import Mathlib

/-!
# Verification of the PhishAlert web application (src/app.py)

A shallow embedding of the Flask application `app.py`.  Each route handler
becomes a pure Lean function: external effects (the trained classifier, the
outbound liveness GET, the reCAPTCHA siteverify endpoint) are passed in as
oracles, and the mutable stores (the Flask-Caching filesystem cache and the
SQLite contact table) are threaded explicitly as state.  Python floats are
modelled as exact rationals; machine behaviour of floating point plays no
role in the properties checked here.  An `Effects` record traces which
external collaborators a request actually invoked, so that claims of the
form "the classifier is not invoked" become statements about the trace.
-/

namespace PhishAlert

/-- HTTP method of a request; the app only distinguishes GET from POST. -/
inductive Method where
  | get
  | post
deriving DecidableEq, Repr

/-- The pre-trained model loaded by `joblib.load`, as the contract the app
relies on: `predict` returns a class label, `predict_proba` returns the pair
`(p_phishing, p_legitimate)` (code indices `[0]` and `[1]`). -/
structure Classifier where
  predict : String → Int
  predict_proba : String → ℚ × ℚ

/-- Outcome of `requests.get(url, timeout=5)`: either a raised
`requests.RequestException` (timeout, connection error, ...) or a response
carrying an HTTP status code. -/
inductive LivenessResult where
  | requestException
  | status (code : Nat)
deriving DecidableEq, Repr

/-- The data rendered into `index.html` on the classification path
(line 120-126 of app.py): the URL, the result label and the two
confidence percentages.  This structure stands for the rendered payload;
equal structures render to byte-identical pages. -/
structure RenderedIndex where
  url : String
  result : String
  confidence_phishing_feature : ℚ
  confidence_legitimate_feature : ℚ
deriving DecidableEq, Repr

/-- Arguments of a `set_cookie` call.  app.py line 65 passes only the key
and the value, so `maxAge` and `expires` are `none` there; a cookie with
neither attribute is a session cookie in RFC 6265 terms. -/
structure CookieSetting where
  key : String
  value : String
  maxAge : Option Nat
  expires : Option Nat
deriving DecidableEq, Repr

/-- RFC 6265: a cookie is persistent exactly when the server supplied a
Max-Age or an Expires attribute; otherwise it is a session cookie. -/
def CookieSetting.isPersistent (c : CookieSetting) : Bool :=
  c.maxAge.isSome || c.expires.isSome

/-- A row of the `Contact` model (app.py lines 30-34). -/
structure Contact where
  id : Nat
  name : String
  email : String
  message : String
deriving DecidableEq, Repr

/-- The contact table: its rows plus the next auto-increment primary key. -/
structure ContactDB where
  rows : List Contact
  nextId : Nat
deriving DecidableEq, Repr

/-- The responses the embedded handlers can produce.  Rendered templates are
represented structurally by the data passed to `render_template`. -/
inductive Response where
  | renderIndexResult (page : RenderedIndex)
  | renderIndexForm
  | redirect (target : String)
  | badRequest
  | renderContact (success : Bool)
  | renderViewContacts (contacts : List Contact)
  | notFound
  | renderVerificationError (error : String)
  | renderVerificationPage
  | redirectSettingCookie (target : String) (cookie : CookieSetting)
  | redirectFlashing (target : String) (flashMessage : String)
deriving DecidableEq, Repr

/-- The rendered classification payload carried by a response, when it is a
rendered `index.html` result page. -/
def Response.indexPayload : Response → Option RenderedIndex
  | Response.renderIndexResult page => some page
  | _ => none

/-- State of the Flask-Caching store: entries `(key, writeTime, payload)`,
newest first; `cacheSet` prepends, `cacheGet` reads the newest entry for the
key, honouring the per-entry timeout. -/
abbrev CacheState := List (String × Nat × RenderedIndex)

/-- `cache.get(url)`: the newest entry under the exact key, unless its TTL
(3600 seconds, the timeout every write in app.py uses) has elapsed. -/
def cacheGet (c : CacheState) (now : Nat) (k : String) : Option RenderedIndex :=
  match c.find? (fun e => e.1 == k) with
  | some (_, w, v) => if now < w + 3600 then some v else none
  | none => none

/-- `cache.set(url, cached_render, timeout=3600)` (app.py line 127). -/
def cacheSet (c : CacheState) (now : Nat) (k : String) (v : RenderedIndex) :
    CacheState :=
  (k, now, v) :: c

/-- Which external collaborators a single request invoked. -/
structure Effects where
  cacheRead : Bool
  cacheWrite : Bool
  livenessChecked : Bool
  classifierInvoked : Bool
deriving DecidableEq, Repr

/-- The trace of a request that touched nothing. -/
def noEffects : Effects := ⟨false, false, false, false⟩

/-- The parts of an incoming request to `/` that `detect_phishing` reads:
the method, the `recaptcha_verified` cookie, and the `url` form field
(`none` when the field is absent, in which case `request.form["url"]`
raises and Flask answers 400). -/
structure IndexRequest where
  method : Method
  cookieRecaptchaVerified : Option String
  formUrl : Option String
deriving DecidableEq, Repr

/-- The `/` route handler `detect_phishing` (app.py lines 75-134), returning
the response, the cache state after the request, and the effect trace. -/
def detect_phishing (clf : Classifier) (live : String → LivenessResult)
    (req : IndexRequest) (cache : CacheState) (now : Nat) :
    Response × CacheState × Effects :=
  if req.cookieRecaptchaVerified = some "true" then
    match req.method with
    | Method.post =>
      match req.formUrl with
      | none => (Response.badRequest, cache, noEffects)
      | some url =>
        match cacheGet cache now url with
        | some cached_result =>
          (Response.renderIndexResult cached_result, cache,
            ⟨true, false, false, false⟩)
        | none =>
          match live url with
          | LivenessResult.status code =>
            if code = 200 then
              let feature_pred := clf.predict url
              let feature_confidence := clf.predict_proba url
              let confidence_phishing_feature := feature_confidence.1 * 100
              let confidence_legitimate_feature := feature_confidence.2 * 100
              let threshold : ℚ := 50
              let final_pred : Int :=
                if confidence_phishing_feature > threshold then -1 else 1
              let _ := feature_pred
              let result : String :=
                if final_pred = -1 then "Phishing" else "Legitimate"
              let cached_render : RenderedIndex :=
                ⟨url, result, confidence_phishing_feature,
                  confidence_legitimate_feature⟩
              (Response.renderIndexResult cached_render,
                cacheSet cache now url cached_render, ⟨true, true, true, true⟩)
            else
              let cached_render : RenderedIndex := ⟨url, "Phishing", 100, 0⟩
              (Response.renderIndexResult cached_render,
                cacheSet cache now url cached_render, ⟨true, true, true, false⟩)
          | LivenessResult.requestException =>
            let cached_render : RenderedIndex := ⟨url, "Phishing", 100, 0⟩
            (Response.renderIndexResult cached_render,
              cacheSet cache now url cached_render, ⟨true, true, true, false⟩)
    | Method.get => (Response.renderIndexForm, cache, noEffects)
  else
    (Response.redirect "/verify_recaptcha", cache, noEffects)

/-- Outcome of the outbound POST to the Google siteverify endpoint:
`httpNotOk` when `response.ok` is false, otherwise the truthiness of the
`success` field of the JSON body. -/
inductive SiteverifyResult where
  | httpNotOk
  | ok (success : Bool)
deriving DecidableEq, Repr

/-- Python truthiness of `request.form.get('g-recaptcha-response')`:
`not token` holds when the field is absent or the empty string. -/
def tokenTruthy : Option String → Bool
  | none => false
  | some t => !(t == "")

/-- The `/verify_recaptcha` route handler (app.py lines 43-72).  `siteverify`
is the oracle for the outbound verification call made with the given token. -/
def verify_recaptcha (method : Method) (token : Option String)
    (siteverify : String → SiteverifyResult) : Response :=
  match method with
  | Method.post =>
    if tokenTruthy token = false then
      Response.renderVerificationError "Please complete the reCAPTCHA."
    else
      match siteverify (token.getD "") with
      | SiteverifyResult.ok true =>
        Response.redirectSettingCookie "/"
          ⟨"recaptcha_verified", "true", none, none⟩
      | SiteverifyResult.ok false =>
        Response.renderVerificationError "reCAPTCHA verification failed."
      | SiteverifyResult.httpNotOk =>
        Response.renderVerificationError
          "Failed to verify reCAPTCHA. Please try again later."
  | Method.get => Response.renderVerificationPage

/-- The `/submit_contact` route handler (app.py lines 144-156).  Direct
indexing `request.form['name']` raises `BadRequestKeyError` when the field
is absent, which Flask turns into a 400 response before any row is added. -/
def submit_contact (form : String → Option String) (db : ContactDB) :
    Response × ContactDB :=
  match form "name", form "email", form "message" with
  | some name, some email, some message =>
    let new_contact : Contact := ⟨db.nextId, name, email, message⟩
    (Response.renderContact true, ⟨db.rows ++ [new_contact], db.nextId + 1⟩)
  | _, _, _ => (Response.badRequest, db)

/-- The `/view_contacts` route handler (app.py lines 158-161). -/
def view_contacts (db : ContactDB) : Response :=
  Response.renderViewContacts db.rows

/-- The `/delete_contact/<int:id>` route handler (app.py lines 163-170).
`Contact.query.get_or_404(id)` aborts with 404 when no row has primary key
`id`; otherwise the fetched row is deleted and the handler flashes a
confirmation and redirects to the listing. -/
def delete_contact (id : Nat) (db : ContactDB) : Response × ContactDB :=
  match db.rows.find? (fun r => r.id == id) with
  | none => (Response.notFound, db)
  | some _ =>
    (Response.redirectFlashing "/view_contacts" "Contact deleted successfully.",
      ⟨db.rows.eraseP (fun r => r.id == id), db.nextId⟩)

/-! ## Concrete fixtures used by the witnesses -/

/-- A classifier that is 70% sure every URL is phishing. -/
def testClf : Classifier := ⟨fun _ => 1, fun _ => (7 / 10, 3 / 10)⟩

/-- Same probabilities as `testClf` but an opposite `predict` label. -/
def testClf2 : Classifier := ⟨fun _ => -1, fun _ => (7 / 10, 3 / 10)⟩

/-- A classifier sitting exactly on the 50% threshold. -/
def halfClf : Classifier := ⟨fun _ => 1, fun _ => (1 / 2, 1 / 2)⟩

/-- A liveness oracle for which every GET raises. -/
def deadLive : String → LivenessResult := fun _ => LivenessResult.requestException

/-- A liveness oracle for which every GET answers HTTP 200. -/
def okLive : String → LivenessResult := fun _ => LivenessResult.status 200

/-- A siteverify oracle that accepts every token. -/
def alwaysOkSiteverify : String → SiteverifyResult :=
  fun _ => SiteverifyResult.ok true

/-- A contact form with all three required fields filled in. -/
def fullContactForm : String → Option String := fun k =>
  if k = "name" then some "Ada" else
  if k = "email" then some "ada@example.com" else
  if k = "message" then some "hello" else none

/-- A one-row contact table whose only row has primary key 1. -/
def testDB : ContactDB := ⟨[⟨1, "Ada", "ada@example.com", "hello"⟩], 2⟩

/-! ## Basic cache lemmas -/

/-- Reading back the key just written, within its 3600-second lifetime. -/
theorem cacheGet_cacheSet_self (c : CacheState) (t1 t2 : Nat) (k : String)
    (v : RenderedIndex) (ht : t2 < t1 + 3600) :
    cacheGet (cacheSet c t1 k v) t2 k = some v := by
  simp [cacheGet, cacheSet, List.find?, ht]

/-- The entry written at `t1` is gone once 3600 seconds have elapsed. -/
theorem cacheGet_cacheSet_self_expired (c : CacheState) (t1 t3 : Nat)
    (k : String) (v : RenderedIndex) (ht : t1 + 3600 ≤ t3) :
    cacheGet (cacheSet c t1 k v) t3 k = none := by
  simp [cacheGet, cacheSet, List.find?]
  omega

/-- Writing under one key never affects reads of a different key string. -/
theorem cacheGet_cacheSet_ne (c : CacheState) (t1 t2 : Nat) (k k2 : String)
    (v : RenderedIndex) (hne : k2 ≠ k) :
    cacheGet (cacheSet c t1 k v) t2 k2 = cacheGet c t2 k2 := by
  simp only [cacheGet, cacheSet, List.find?]
  have : (k == k2) = false := by simpa using (Ne.symm hne)
  simp [this]

/-! ## Shape of `detect_phishing` on each path -/

/-- On a verified POST with a cache hit, the stored payload is returned, the
cache is untouched, and neither the liveness check nor the classifier runs. -/
theorem detect_phishing_cache_hit (clf : Classifier)
    (live : String → LivenessResult) (cache : CacheState) (now : Nat)
    (url : String) (p : RenderedIndex)
    (hhit : cacheGet cache now url = some p) :
    detect_phishing clf live ⟨Method.post, some "true", some url⟩ cache now =
      (Response.renderIndexResult p, cache, ⟨true, false, false, false⟩) := by
  simp [detect_phishing, hhit]

/-- On a verified POST with a cache miss and a live (HTTP 200) URL, the model
runs and the rendered result is determined by `predict_proba` alone. -/
theorem detect_phishing_status200 (clf : Classifier)
    (live : String → LivenessResult) (cache : CacheState) (now : Nat)
    (url : String) (hmiss : cacheGet cache now url = none)
    (h200 : live url = LivenessResult.status 200) :
    detect_phishing clf live ⟨Method.post, some "true", some url⟩ cache now =
      (Response.renderIndexResult
          ⟨url,
            if (clf.predict_proba url).1 * 100 > 50 then "Phishing"
            else "Legitimate",
            (clf.predict_proba url).1 * 100, (clf.predict_proba url).2 * 100⟩,
        cacheSet cache now url
          ⟨url,
            if (clf.predict_proba url).1 * 100 > 50 then "Phishing"
            else "Legitimate",
            (clf.predict_proba url).1 * 100, (clf.predict_proba url).2 * 100⟩,
        ⟨true, true, true, true⟩) := by
  simp only [detect_phishing, hmiss, h200]
  norm_num

/-- On a verified POST with a cache miss whose liveness GET raises or comes
back with a status other than 200, the fail-closed payload
`(Phishing, 100, 0)` is rendered and cached, and the classifier never runs. -/
theorem detect_phishing_liveness_failed (clf : Classifier)
    (live : String → LivenessResult) (cache : CacheState) (now : Nat)
    (url : String) (hmiss : cacheGet cache now url = none)
    (hfail : live url = LivenessResult.requestException ∨
      ∃ code, live url = LivenessResult.status code ∧ code ≠ 200) :
    detect_phishing clf live ⟨Method.post, some "true", some url⟩ cache now =
      (Response.renderIndexResult ⟨url, "Phishing", 100, 0⟩,
        cacheSet cache now url ⟨url, "Phishing", 100, 0⟩,
        ⟨true, true, true, false⟩) := by
  rcases hfail with h | ⟨code, h, hcode⟩
  · simp [detect_phishing, hmiss, h]
  · simp [detect_phishing, hmiss, h, hcode]

/-- On a verified POST with a cache miss, whatever the liveness outcome, the
response is a rendered payload and that same payload is written to the cache
under the raw URL string at the current time. -/
theorem detect_phishing_post_miss_shape (clf : Classifier)
    (live : String → LivenessResult) (cache : CacheState) (now : Nat)
    (url : String) (hmiss : cacheGet cache now url = none) :
    ∃ page effs,
      detect_phishing clf live ⟨Method.post, some "true", some url⟩ cache now =
        (Response.renderIndexResult page, cacheSet cache now url page, effs) := by
  cases hl : live url with
  | requestException =>
    exact ⟨_, _, detect_phishing_liveness_failed clf live cache now url hmiss
      (Or.inl hl)⟩
  | status code =>
    by_cases hc : code = 200
    · subst hc
      exact ⟨_, _, detect_phishing_status200 clf live cache now url hmiss hl⟩
    · exact ⟨_, _, detect_phishing_liveness_failed clf live cache now url hmiss
        (Or.inr ⟨code, hl, hc⟩)⟩

/-! ## Claims -/

/-- Claim C1: on the POST `/` classification path with no cache entry, if the
liveness GET raises or returns a status other than 200, the rendered result
is label Phishing with confidences (100.0, 0.0), and the classifier's
predict/predict_proba are not invoked. -/
theorem liveness_failure_is_phishing (clf : Classifier)
    (live : String → LivenessResult) (cache : CacheState) (now : Nat)
    (url : String) (hmiss : cacheGet cache now url = none)
    (hfail : live url = LivenessResult.requestException ∨
      ∃ code, live url = LivenessResult.status code ∧ code ≠ 200) :
    (detect_phishing clf live ⟨Method.post, some "true", some url⟩ cache
        now).1 = Response.renderIndexResult ⟨url, "Phishing", 100, 0⟩ ∧
    (detect_phishing clf live ⟨Method.post, some "true", some url⟩ cache
        now).2.2.classifierInvoked = false := by
  rw [detect_phishing_liveness_failed clf live cache now url hmiss hfail]
  exact ⟨rfl, rfl⟩

/-- Witness for C1 at a concrete unreachable URL. -/
theorem liveness_failure_is_phishing_witness :
    (detect_phishing testClf deadLive
        ⟨Method.post, some "true", some "http://a"⟩ [] 0).1 =
      Response.renderIndexResult ⟨"http://a", "Phishing", 100, 0⟩ ∧
    (detect_phishing testClf deadLive
        ⟨Method.post, some "true", some "http://a"⟩ [] 0).2.2.classifierInvoked
      = false :=
  liveness_failure_is_phishing testClf deadLive [] 0 "http://a" rfl (Or.inl rfl)

/-- Claim C2: when the liveness check returns HTTP 200, the label is decided
by a strict comparison of the phishing-confidence percentage against the
fixed threshold 50: exactly 50 yields Legitimate, strictly above 50 yields
Phishing. -/
theorem threshold_strict_comparison (clf : Classifier)
    (live : String → LivenessResult) (cache : CacheState) (now : Nat)
    (url : String) (hmiss : cacheGet cache now url = none)
    (h200 : live url = LivenessResult.status 200) :
    ((clf.predict_proba url).1 * 100 = 50 →
      (detect_phishing clf live ⟨Method.post, some "true", some url⟩ cache
          now).1 =
        Response.renderIndexResult
          ⟨url, "Legitimate", 50, (clf.predict_proba url).2 * 100⟩) ∧
    ((clf.predict_proba url).1 * 100 > 50 →
      (detect_phishing clf live ⟨Method.post, some "true", some url⟩ cache
          now).1 =
        Response.renderIndexResult
          ⟨url, "Phishing", (clf.predict_proba url).1 * 100,
            (clf.predict_proba url).2 * 100⟩) := by
  rw [detect_phishing_status200 clf live cache now url hmiss h200]
  constructor
  · intro h50
    simp [h50]
  · intro hgt
    simp [hgt]

/-- Witness for C2: a classifier sitting exactly on the 50% boundary is
labelled Legitimate. -/
theorem threshold_strict_comparison_witness :
    (detect_phishing halfClf okLive
        ⟨Method.post, some "true", some "http://a"⟩ [] 0).1 =
      Response.renderIndexResult
        ⟨"http://a", "Legitimate", 50,
          (halfClf.predict_proba "http://a").2 * 100⟩ :=
  (threshold_strict_comparison halfClf okLive [] 0 "http://a" rfl rfl).1
    (by norm_num [halfClf])

/-- Claim C4: any request to `/` whose `recaptcha_verified` cookie is absent
or differs from the exact string "true" is redirected to `/verify_recaptcha`,
with no cache access, no liveness check and no classifier invocation,
regardless of HTTP method. -/
theorem unverified_request_redirects (clf : Classifier)
    (live : String → LivenessResult) (req : IndexRequest) (cache : CacheState)
    (now : Nat) (h : req.cookieRecaptchaVerified ≠ some "true") :
    detect_phishing clf live req cache now =
      (Response.redirect "/verify_recaptcha", cache, noEffects) := by
  simp [detect_phishing, h]

/-- Witness for C4 at a concrete cookieless POST. -/
theorem unverified_request_redirects_witness :
    detect_phishing testClf deadLive ⟨Method.post, none, some "http://a"⟩ [] 0 =
      (Response.redirect "/verify_recaptcha", [], noEffects) :=
  unverified_request_redirects testClf deadLive
    ⟨Method.post, none, some "http://a"⟩ [] 0 (by simp)

/-- Claim C10: a verified POST to `/` that omits the `url` form field ends in
a 400 bad-request response — `request.form["url"]` raises — with the cache
unchanged and no cache read, cache write, liveness check or model
invocation. -/
theorem missing_url_field_bad_request (clf : Classifier)
    (live : String → LivenessResult) (cache : CacheState) (now : Nat) :
    detect_phishing clf live ⟨Method.post, some "true", none⟩ cache now =
      (Response.badRequest, cache, noEffects) := by
  simp [detect_phishing]

/-- Claim C3: on a verified POST cache miss the rendered payload is stored
under the raw URL string with TTL 3600 seconds; an identical request while
the entry is unexpired returns the stored payload verbatim, leaves the cache
unchanged, and invokes neither the liveness check nor the classifier (even a
different classifier or liveness oracle on the second request is never
consulted); a different URL string never shares the entry, and the entry is
gone 3600 seconds after the write. -/
theorem cache_roundtrip (clf clf2 : Classifier)
    (live live2 : String → LivenessResult) (cache : CacheState)
    (t1 t2 t3 t4 : Nat) (url u2 : String)
    (hmiss : cacheGet cache t1 url = none)
    (ht2 : t2 < t1 + 3600) (ht3 : t1 + 3600 ≤ t3) (hne : u2 ≠ url) :
    cacheGet (detect_phishing clf live ⟨Method.post, some "true", some url⟩
        cache t1).2.1 t2 url =
      Response.indexPayload
        (detect_phishing clf live ⟨Method.post, some "true", some url⟩
          cache t1).1 ∧
    (Response.indexPayload
        (detect_phishing clf live ⟨Method.post, some "true", some url⟩
          cache t1).1).isSome = true ∧
    detect_phishing clf2 live2 ⟨Method.post, some "true", some url⟩
        (detect_phishing clf live ⟨Method.post, some "true", some url⟩
          cache t1).2.1 t2 =
      ((detect_phishing clf live ⟨Method.post, some "true", some url⟩
          cache t1).1,
        (detect_phishing clf live ⟨Method.post, some "true", some url⟩
          cache t1).2.1,
        ⟨true, false, false, false⟩) ∧
    cacheGet (detect_phishing clf live ⟨Method.post, some "true", some url⟩
        cache t1).2.1 t4 u2 = cacheGet cache t4 u2 ∧
    cacheGet (detect_phishing clf live ⟨Method.post, some "true", some url⟩
        cache t1).2.1 t3 url = none := by
  obtain ⟨page, effs, hout⟩ :=
    detect_phishing_post_miss_shape clf live cache t1 url hmiss
  rw [hout]
  refine ⟨?_, ?_, ?_, ?_, ?_⟩
  · simpa [Response.indexPayload] using
      cacheGet_cacheSet_self cache t1 t2 url page ht2
  · simp [Response.indexPayload]
  · exact detect_phishing_cache_hit clf2 live2 _ t2 url page
      (cacheGet_cacheSet_self cache t1 t2 url page ht2)
  · exact cacheGet_cacheSet_ne cache t1 t4 url u2 page hne
  · exact cacheGet_cacheSet_self_expired cache t1 t3 url page ht3

/-- Witness for C3: a second identical request 10 seconds after the first
returns the first payload from the cache, consulting neither a (different)
classifier nor a (different) liveness oracle. -/
theorem cache_roundtrip_witness :
    detect_phishing testClf2 okLive
        ⟨Method.post, some "true", some "http://a"⟩
        (detect_phishing testClf deadLive
          ⟨Method.post, some "true", some "http://a"⟩ [] 0).2.1 10 =
      ((detect_phishing testClf deadLive
          ⟨Method.post, some "true", some "http://a"⟩ [] 0).1,
        (detect_phishing testClf deadLive
          ⟨Method.post, some "true", some "http://a"⟩ [] 0).2.1,
        ⟨true, false, false, false⟩) :=
  (cache_roundtrip testClf testClf2 deadLive okLive [] 0 10 3600 5
      "http://a" "http://b" rfl (by norm_num) (by norm_num) (by decide)).2.2.1

/-- Claim C7: on the model-derived path (predict_proba being a probability
pair) the two rendered confidence percentages sum to 100 and each lies in
[0, 100]; when the URL is unreachable or answers non-200 the pair is fixed
to (100, 0). -/
theorem confidence_invariant (clf : Classifier)
    (live : String → LivenessResult) (cache : CacheState) (now : Nat)
    (url : String) (hmiss : cacheGet cache now url = none)
    (hp1 : 0 ≤ (clf.predict_proba url).1)
    (hp2 : 0 ≤ (clf.predict_proba url).2)
    (hsum : (clf.predict_proba url).1 + (clf.predict_proba url).2 = 1) :
    (live url = LivenessResult.status 200 →
      (detect_phishing clf live ⟨Method.post, some "true", some url⟩ cache
          now).1 =
        Response.renderIndexResult
          ⟨url,
            if (clf.predict_proba url).1 * 100 > 50 then "Phishing"
            else "Legitimate",
            (clf.predict_proba url).1 * 100,
            (clf.predict_proba url).2 * 100⟩ ∧
      (clf.predict_proba url).1 * 100 + (clf.predict_proba url).2 * 100 = 100 ∧
      0 ≤ (clf.predict_proba url).1 * 100 ∧
      (clf.predict_proba url).1 * 100 ≤ 100 ∧
      0 ≤ (clf.predict_proba url).2 * 100 ∧
      (clf.predict_proba url).2 * 100 ≤ 100) ∧
    (live url ≠ LivenessResult.status 200 →
      (detect_phishing clf live ⟨Method.post, some "true", some url⟩ cache
          now).1 =
        Response.renderIndexResult ⟨url, "Phishing", 100, 0⟩) := by
  constructor
  · intro h200
    rw [detect_phishing_status200 clf live cache now url hmiss h200]
    refine ⟨rfl, by linarith, by linarith, by linarith, by linarith, by linarith⟩
  · intro hne
    have hfail : live url = LivenessResult.requestException ∨
        ∃ code, live url = LivenessResult.status code ∧ code ≠ 200 := by
      cases hl : live url with
      | requestException => exact Or.inl rfl
      | status code =>
        refine Or.inr ⟨code, rfl, ?_⟩
        intro hc
        exact hne (hc ▸ hl)
    rw [detect_phishing_liveness_failed clf live cache now url hmiss hfail]

/-- Witness for C7 with a (0.7, 0.3) probability pair on a live URL. -/
theorem confidence_invariant_witness :
    (detect_phishing testClf okLive
        ⟨Method.post, some "true", some "http://a"⟩ [] 0).1 =
      Response.renderIndexResult
        ⟨"http://a",
          if (testClf.predict_proba "http://a").1 * 100 > 50 then "Phishing"
          else "Legitimate",
          (testClf.predict_proba "http://a").1 * 100,
          (testClf.predict_proba "http://a").2 * 100⟩ ∧
    (testClf.predict_proba "http://a").1 * 100 +
        (testClf.predict_proba "http://a").2 * 100 = 100 ∧
    0 ≤ (testClf.predict_proba "http://a").1 * 100 ∧
    (testClf.predict_proba "http://a").1 * 100 ≤ 100 ∧
    0 ≤ (testClf.predict_proba "http://a").2 * 100 ∧
    (testClf.predict_proba "http://a").2 * 100 ≤ 100 :=
  (confidence_invariant testClf okLive [] 0 "http://a" rfl
      (by norm_num [testClf]) (by norm_num [testClf])
      (by norm_num [testClf])).1 rfl

/-- Claim C9: the value of `feature_model.predict` is computed but never
used; on the HTTP-200 path the rendered label depends only on
`predict_proba`, and it is Phishing exactly when the first returned
probability exceeds 0.5. -/
theorem predict_result_unused (clf clf2 : Classifier)
    (live : String → LivenessResult) (cache : CacheState) (now : Nat)
    (url : String)
    (hproba : clf.predict_proba = clf2.predict_proba)
    (hmiss : cacheGet cache now url = none)
    (h200 : live url = LivenessResult.status 200) :
    detect_phishing clf live ⟨Method.post, some "true", some url⟩ cache now =
      detect_phishing clf2 live ⟨Method.post, some "true", some url⟩ cache
        now ∧
    ((detect_phishing clf live ⟨Method.post, some "true", some url⟩ cache
        now).1 =
      Response.renderIndexResult
        ⟨url, "Phishing", (clf.predict_proba url).1 * 100,
          (clf.predict_proba url).2 * 100⟩ ↔
      1 / 2 < (clf.predict_proba url).1) := by
  constructor
  · rw [detect_phishing_status200 clf live cache now url hmiss h200,
      detect_phishing_status200 clf2 live cache now url hmiss h200, hproba]
  · rw [detect_phishing_status200 clf live cache now url hmiss h200]
    constructor
    · intro h
      by_contra hle
      push_neg at hle
      have hno : ¬((clf.predict_proba url).1 * 100 > 50) := by linarith
      simp [hno] at h
    · intro h
      have hyes : (clf.predict_proba url).1 * 100 > 50 := by linarith
      simp [hyes]

/-- Witness for C9: two classifiers with equal probabilities but opposite
predict labels produce identical responses. -/
theorem predict_result_unused_witness :
    detect_phishing testClf okLive
        ⟨Method.post, some "true", some "http://a"⟩ [] 0 =
      detect_phishing testClf2 okLive
        ⟨Method.post, some "true", some "http://a"⟩ [] 0 :=
  (predict_result_unused testClf testClf2 okLive [] 0 "http://a" rfl rfl
      rfl).1

/-- Claim C5: a contact submission with all three required fields present
appends exactly one row and shows the success page; a submission missing a
required field raises on the direct form indexing, so the table is unchanged
and the response is a 400. -/
theorem submit_contact_spec (form : String → Option String) (db : ContactDB) :
    (∀ n e m, form "name" = some n → form "email" = some e →
      form "message" = some m →
      submit_contact form db =
        (Response.renderContact true,
          ⟨db.rows ++ [⟨db.nextId, n, e, m⟩], db.nextId + 1⟩)) ∧
    ((form "name" = none ∨ form "email" = none ∨ form "message" = none) →
      submit_contact form db = (Response.badRequest, db)) := by
  constructor
  · intro n e m hn he hm
    simp [submit_contact, hn, he, hm]
  · rintro (h | h | h)
    · simp [submit_contact, h]
    · cases hn : form "name" <;> simp [submit_contact, h, hn]
    · cases hn : form "name" <;> cases he : form "email" <;>
        simp [submit_contact, h, hn, he]

/-- Witness for C5: a complete form inserts one row into an empty table. -/
theorem submit_contact_spec_witness :
    submit_contact fullContactForm ⟨[], 0⟩ =
      (Response.renderContact true,
        ⟨[⟨0, "Ada", "ada@example.com", "hello"⟩], 1⟩) :=
  (submit_contact_spec fullContactForm ⟨[], 0⟩).1 "Ada" "ada@example.com"
    "hello" rfl rfl rfl

/-- Claim C6 (amended): on POST `/verify_recaptcha`, an absent (or empty,
hence falsy) token re-renders the gate page with the missing-token error; an
upstream non-success HTTP status or a negative verification result
re-renders the gate page with an error; a successful verification sets the
cookie `recaptcha_verified` to the string "true" — a session cookie, since
`set_cookie` is called with neither Max-Age nor Expires — and redirects to
`/`.  Failure never sets the cookie. -/
theorem verify_recaptcha_gate (token : Option String)
    (sv : String → SiteverifyResult) :
    (tokenTruthy token = false →
      verify_recaptcha Method.post token sv =
        Response.renderVerificationError "Please complete the reCAPTCHA.") ∧
    (tokenTruthy token = true →
      sv (token.getD "") = SiteverifyResult.httpNotOk →
      verify_recaptcha Method.post token sv =
        Response.renderVerificationError
          "Failed to verify reCAPTCHA. Please try again later.") ∧
    (tokenTruthy token = true →
      sv (token.getD "") = SiteverifyResult.ok false →
      verify_recaptcha Method.post token sv =
        Response.renderVerificationError "reCAPTCHA verification failed.") ∧
    (tokenTruthy token = true →
      sv (token.getD "") = SiteverifyResult.ok true →
      verify_recaptcha Method.post token sv =
        Response.redirectSettingCookie "/"
          ⟨"recaptcha_verified", "true", none, none⟩) ∧
    (∀ target c,
      verify_recaptcha Method.post token sv =
        Response.redirectSettingCookie target c →
      sv (token.getD "") = SiteverifyResult.ok true ∧
        c.isPersistent = false) := by
  refine ⟨?_, ?_, ?_, ?_, ?_⟩
  · intro hf
    simp [verify_recaptcha, hf]
  · intro ht hs
    simp [verify_recaptcha, ht, hs]
  · intro ht hs
    simp [verify_recaptcha, ht, hs]
  · intro ht hs
    simp [verify_recaptcha, ht, hs]
  · intro target c h
    cases hft : tokenTruthy token with
    | false => simp [verify_recaptcha, hft] at h
    | true =>
      cases hs : sv (token.getD "") with
      | httpNotOk => simp [verify_recaptcha, hft, hs] at h
      | ok s =>
        cases s with
        | false => simp [verify_recaptcha, hft, hs] at h
        | true =>
          simp only [verify_recaptcha, hft, hs] at h
          simp only [Bool.true_eq_false, if_false,
            Response.redirectSettingCookie.injEq] at h
          refine ⟨rfl, ?_⟩
          rw [← h.2]
          rfl

/-- Counterexample to C6 as stated: the cookie set on a successful
verification carries neither a Max-Age nor an Expires attribute (app.py
line 65 passes only key and value), so it is a session cookie, not a
persistent one. -/
theorem verify_recaptcha_cookie_not_persistent :
    verify_recaptcha Method.post (some "tok") alwaysOkSiteverify =
      Response.redirectSettingCookie "/"
        ⟨"recaptcha_verified", "true", none, none⟩ ∧
    CookieSetting.isPersistent
        ⟨"recaptcha_verified", "true", none, none⟩ = false := by
  constructor
  · simp [verify_recaptcha, tokenTruthy, alwaysOkSiteverify]
  · rfl

/-- Witness for C6 (amended): a concrete accepted token redirects to `/`
setting the expiry-free cookie. -/
theorem verify_recaptcha_gate_witness :
    verify_recaptcha Method.post (some "tok") alwaysOkSiteverify =
      Response.redirectSettingCookie "/"
        ⟨"recaptcha_verified", "true", none, none⟩ :=
  (verify_recaptcha_gate (some "tok") alwaysOkSiteverify).2.2.2.1 rfl rfl

/-- In a list of contacts whose ids are pairwise distinct (the primary-key
invariant of the table), membership after erasing the row with id `i`. -/
theorem mem_eraseP_id (l : List Contact) (i : Nat)
    (h : (l.map Contact.id).Nodup) (r : Contact) :
    r ∈ l.eraseP (fun c => c.id == i) ↔ r ∈ l ∧ r.id ≠ i := by
  induction l with
  | nil => simp
  | cons a l ih =>
    rw [List.map_cons, List.nodup_cons] at h
    by_cases ha : a.id = i
    · rw [List.eraseP_cons_of_pos (by simpa using ha)]
      constructor
      · intro hr
        refine ⟨List.mem_cons_of_mem a hr, ?_⟩
        intro hri
        exact h.1
          (by simpa [hri, ha] using List.mem_map_of_mem Contact.id hr)
      · rintro ⟨hm, hne⟩
        rcases List.mem_cons.mp hm with rfl | hm
        · exact absurd ha hne
        · exact hm
    · rw [List.eraseP_cons_of_neg (by simpa using ha)]
      simp only [List.mem_cons]
      constructor
      · rintro (rfl | hr)
        · exact ⟨Or.inl rfl, ha⟩
        · have hr2 := (ih h.2).mp hr
          exact ⟨Or.inr hr2.1, hr2.2⟩
      · rintro ⟨rfl | hm, hne⟩
        · exact Or.inl rfl
        · exact Or.inr ((ih h.2).mpr ⟨hm, hne⟩)

/-- Claim C8: deleting an id not present in the table answers 404 and leaves
the table unchanged; deleting an existing id removes exactly that row,
flashes a confirmation, and the subsequent listing shows exactly the
remaining rows. -/
theorem delete_contact_spec (db : ContactDB) (i : Nat)
    (hnodup : (db.rows.map Contact.id).Nodup) :
    ((∀ r ∈ db.rows, r.id ≠ i) →
      delete_contact i db = (Response.notFound, db)) ∧
    (∀ c ∈ db.rows, c.id = i →
      (delete_contact i db).1 =
        Response.redirectFlashing "/view_contacts"
          "Contact deleted successfully." ∧
      (delete_contact i db).2.rows.length + 1 = db.rows.length ∧
      (∀ r, r ∈ (delete_contact i db).2.rows ↔ r ∈ db.rows ∧ r.id ≠ i) ∧
      view_contacts (delete_contact i db).2 =
        Response.renderViewContacts (delete_contact i db).2.rows) := by
  constructor
  · intro habs
    have hfind : db.rows.find? (fun r => r.id == i) = none := by
      rw [List.find?_eq_none]
      intro x hx
      simpa using habs x hx
    simp [delete_contact, hfind]
  · intro c hc hci
    have hfind : (db.rows.find? (fun r => r.id == i)).isSome := by
      rw [List.find?_isSome]
      exact ⟨c, hc, by simpa using hci⟩
    obtain ⟨x, hx⟩ := Option.isSome_iff_exists.mp hfind
    refine ⟨?_, ?_, ?_, ?_⟩
    · simp [delete_contact, hx]
    · have hlen := List.length_eraseP_add_one (p := fun r => r.id == i) hc
        (by simpa using hci)
      simpa [delete_contact, hx] using hlen
    · intro r
      have hmem := mem_eraseP_id db.rows i hnodup r
      simpa [delete_contact, hx] using hmem
    · rfl

/-- Witness for C8: deleting the only row of a one-row table flashes the
confirmation and shrinks the table by one. -/
theorem delete_contact_spec_witness :
    (delete_contact 1 testDB).1 =
      Response.redirectFlashing "/view_contacts"
        "Contact deleted successfully." ∧
    (delete_contact 1 testDB).2.rows.length + 1 = testDB.rows.length :=
  ⟨((delete_contact_spec testDB 1 (by simp [testDB])).2
      ⟨1, "Ada", "ada@example.com", "hello"⟩ (by simp [testDB]) rfl).1,
    ((delete_contact_spec testDB 1 (by simp [testDB])).2
      ⟨1, "Ada", "ada@example.com", "hello"⟩ (by simp [testDB]) rfl).2.1⟩

end PhishAlert
